import Mathlib

/-!
Verification of the Django-Health goal-progress and dashboard logic.

The development shallowly embeds the progress calculator
(`GoalSerializer.get_progress`), the observation-creation validation
(`HealthMetricCreateSerializer.validate`), the dashboard aggregator
(`DashboardViewSet.list`) and the goal deactivation action
(`GoalViewSet.deactivate`) from `src/metrics/serializers.py`,
`src/metrics/views.py` and `src/metrics/models.py`.

Calendar dates are embedded as (year, month, day) records together with the
proleptic-Gregorian ordinal used by Python's `datetime.date`
(`date.toordinal`); date comparison and date arithmetic in the source act
through that ordinal.  Decimal values are embedded as rationals.
-/

namespace DjangoHealth

/-! ### Calendar: Python `datetime.date` -/

/-- Gregorian leap-year test, as in Python's `calendar.isleap`. -/
def isLeap (y : Nat) : Bool := y % 4 == 0 && (y % 100 != 0 || y % 400 == 0)

/-- Number of days before January 1st of `year` (Python `_days_before_year`). -/
def daysBeforeYear (year : Nat) : Nat :=
  let y := year - 1
  y * 365 + y / 4 - y / 100 + y / 400

/-- Cumulative day counts before each month in a non-leap year
(Python `_DAYS_BEFORE_MONTH`). -/
def daysBeforeMonthTable : Nat → Nat
  | 1 => 0
  | 2 => 31
  | 3 => 59
  | 4 => 90
  | 5 => 120
  | 6 => 151
  | 7 => 181
  | 8 => 212
  | 9 => 243
  | 10 => 273
  | 11 => 304
  | 12 => 334
  | _ => 0

/-- Number of days in `year` before the first of `month`
(Python `_days_before_month`). -/
def daysBeforeMonth (year month : Nat) : Nat :=
  daysBeforeMonthTable month + (if 2 < month then (if isLeap year then 1 else 0) else 0)

/-- Number of days in a month (Python `_days_in_month`). -/
def daysInMonth (year month : Nat) : Nat :=
  if month = 2 then (if isLeap year then 29 else 28)
  else if month = 4 || month = 6 || month = 9 || month = 11 then 30
  else 31

/-- A calendar date, as Python's `datetime.date`. -/
structure Date where
  year : Nat
  month : Nat
  day : Nat
deriving DecidableEq, Repr

/-- The date is a real calendar date (what `datetime.date` enforces on
construction). -/
def Date.Valid (d : Date) : Prop :=
  1 ≤ d.year ∧ 1 ≤ d.month ∧ d.month ≤ 12 ∧ 1 ≤ d.day ∧ d.day ≤ daysInMonth d.year d.month

instance (d : Date) : Decidable d.Valid := by
  unfold Date.Valid
  infer_instance

/-- Python's `date.toordinal` (`_ymd2ord`): day 1 is 0001-01-01. -/
def Date.toOrdinal (d : Date) : Nat :=
  daysBeforeYear d.year + daysBeforeMonth d.year d.month + d.day

/-- Python's `date.weekday`: Monday is 0, computed from the ordinal. -/
def Date.weekday (d : Date) : Nat := (d.toOrdinal + 6) % 7

/-- Weekday of a day given by its proleptic-Gregorian ordinal (Monday is 0). -/
def weekdayOfOrdinal (n : Nat) : Nat := (n + 6) % 7

/-! ### Data model: `src/metrics/models.py` -/

/-- `Goal.GoalType` choices. -/
inductive GoalType
  | DAILY
  | WEEKLY
  | MONTHLY
deriving DecidableEq, Repr

/-- `Goal.GoalDirection` choices. -/
inductive GoalDirection
  | INCREASE
  | DECREASE
  | MAINTAIN
deriving DecidableEq, Repr

/-- `MetricType` model row. -/
structure MetricType where
  id : Nat
  name : String
  unit : String
  min_value : Option ℚ
  max_value : Option ℚ
  is_active : Bool
deriving DecidableEq, Repr

/-- `HealthMetric` model row (a dated metric observation); `created_at` is an
abstract creation timestamp used for ordering. -/
structure HealthMetric where
  id : Nat
  user : Nat
  metric_type : Nat
  value : ℚ
  recorded_date : Date
  created_at : Nat
deriving DecidableEq, Repr

/-- `Goal` model row. -/
structure Goal where
  id : Nat
  user : Nat
  metric_type : Nat
  target_value : ℚ
  goal_type : GoalType
  direction : GoalDirection
  is_active : Bool
  start_date : Date
  end_date : Option Date
  created_at : Nat
deriving DecidableEq, Repr

/-- `Goal.is_expired` property (models.py): end date set and strictly before
today. -/
def Goal.is_expired (g : Goal) (today : Date) : Bool :=
  match g.end_date with
  | some e => decide (e.toOrdinal < today.toOrdinal)
  | none => false

/-! ### Progress calculator: `GoalSerializer.get_progress` (serializers.py) -/

/-- Python's `round(x, 1)` at rational precision: round `x * 10` to the
nearest integer, ties to even, then divide by 10. -/
def roundHalfToEven (q : ℚ) : ℤ :=
  if q - ⌊q⌋ < 1 / 2 then ⌊q⌋
  else if 1 / 2 < q - ⌊q⌋ then ⌊q⌋ + 1
  else if ⌊q⌋ % 2 = 0 then ⌊q⌋ else ⌊q⌋ + 1

/-- Round a rational to one decimal place, as `round(x, 1)`. -/
def round1 (q : ℚ) : ℚ := (roundHalfToEven (q * 10) : ℚ) / 10

/-- The progress dictionary returned by `GoalSerializer.get_progress`; window
bounds are carried as date ordinals. -/
structure ProgressSnapshot where
  current_value : ℚ
  target_value : ℚ
  percentage : ℚ
  period_start : Nat
  period_end : Nat
deriving DecidableEq, Repr

/-- Window start selected in `get_progress`: today for DAILY,
`today - timedelta(days=today.weekday())` for WEEKLY, `today.replace(day=1)`
for MONTHLY (as an ordinal). -/
def progressWindowStart (gt : GoalType) (today : Date) : Nat :=
  match gt with
  | .DAILY => today.toOrdinal
  | .WEEKLY => today.toOrdinal - today.weekday
  | .MONTHLY => (Date.mk today.year today.month 1).toOrdinal

/-- `Sum('value')` over a query result. -/
def sumValues (l : List HealthMetric) : ℚ := (l.map (fun m => m.value)).sum

/-- `Avg('value')` over a query result; the `or 0` fallback makes the empty
case 0. -/
def avgValues (l : List HealthMetric) : ℚ :=
  if l.length = 0 then 0 else sumValues l / (l.length : ℚ)

/-- `HealthMetric.objects.filter(user=..., metric_type=...,
recorded_date__gte=start, recorded_date__lte=end)`. -/
def metricsInRange (metrics : List HealthMetric) (user mt startOrd endOrd : Nat) :
    List HealthMetric :=
  metrics.filter (fun m =>
    m.user == user && m.metric_type == mt &&
    decide (startOrd ≤ m.recorded_date.toOrdinal) &&
    decide (m.recorded_date.toOrdinal ≤ endOrd))

/-- The observations consulted by `get_progress` for goal `g` on `today`. -/
def relevantMetrics (g : Goal) (today : Date) (metrics : List HealthMetric) :
    List HealthMetric :=
  metricsInRange metrics g.user g.metric_type (progressWindowStart g.goal_type today)
    today.toOrdinal

/-- `GoalSerializer.get_progress` (serializers.py lines 167-210): pick the
window by goal type, sum (DAILY) or average (WEEKLY/MONTHLY) the observation
values in the window, and clamp the percentage at 100 (0 when the target is
not positive). -/
def GoalSerializer.get_progress (g : Goal) (today : Date)
    (metrics : List HealthMetric) : ProgressSnapshot :=
  let ms := relevantMetrics g today metrics
  let current_value : ℚ := if g.goal_type = .DAILY then sumValues ms else avgValues ms
  let percentage : ℚ :=
    if 0 < g.target_value then min 100 (current_value / g.target_value * 100) else 0
  { current_value := current_value
    target_value := g.target_value
    percentage := round1 percentage
    period_start := progressWindowStart g.goal_type today
    period_end := today.toOrdinal }

/-! ### Observation creation: `HealthMetricCreateSerializer` (serializers.py) -/

/-- The condition of `if metric_type.min_value and value < metric_type.min_value`:
Python truthiness makes a bound equal to 0 falsy, so a zero bound is skipped. -/
def minViolation (mt : MetricType) (v : ℚ) : Bool :=
  match mt.min_value with
  | some mv => !decide (mv = 0) && decide (v < mv)
  | none => false

/-- The condition of `if metric_type.max_value and value > metric_type.max_value`. -/
def maxViolation (mt : MetricType) (v : ℚ) : Bool :=
  match mt.max_value with
  | some mv => !decide (mv = 0) && decide (mv < v)
  | none => false

/-- `HealthMetric.objects.filter(user=..., metric_type=...,
recorded_date=...).exists()`. -/
def hasExistingEntry (store : List HealthMetric) (user mtId : Nat) (d : Date) : Bool :=
  store.any (fun m => m.user == user && m.metric_type == mtId && m.recorded_date == d)

/-- `HealthMetricCreateSerializer.validate` on the create path (serializers.py
lines 104-134): bounds checks first, then the duplicate-entry check. -/
def HealthMetricCreateSerializer.validate (store : List HealthMetric) (user : Nat)
    (mt : MetricType) (value : ℚ) (recorded_date : Date) : Except String Unit :=
  if minViolation mt value then
    Except.error ("Value must be at least the minimum")
  else if maxViolation mt value then
    Except.error ("Value must be at most the maximum")
  else if hasExistingEntry store user mt.id recorded_date then
    Except.error ("You already have an entry for this date.")
  else
    Except.ok ()

/-- `HealthMetricCreateSerializer.create`: validation followed by an insert of
the new row (the user comes from the request context). -/
def HealthMetricCreateSerializer.create (store : List HealthMetric) (user : Nat)
    (mt : MetricType) (value : ℚ) (recorded_date : Date) (newId createdAt : Nat) :
    Except String (List HealthMetric) :=
  match HealthMetricCreateSerializer.validate store user mt value recorded_date with
  | Except.error e => Except.error e
  | Except.ok _ =>
      Except.ok (store ++ [HealthMetric.mk newId user mt.id value recorded_date createdAt])

/-! ### Dashboard: `DashboardViewSet.list` (views.py) -/

/-- Comparator realising `order_by('-recorded_date', '-created_at')`:
`a` comes no later than `b` when `a`'s key (recorded date, creation time) is
lexicographically at least `b`'s. -/
def metricKeyLe (a b : HealthMetric) : Bool :=
  decide (b.recorded_date.toOrdinal < a.recorded_date.toOrdinal) ||
  (b.recorded_date.toOrdinal == a.recorded_date.toOrdinal &&
    decide (b.created_at ≤ a.created_at))

/-- The dashboard response body. -/
structure DashboardData where
  total_metrics_logged : Nat
  active_goals : Nat
  metrics_this_week : Nat
  goals_on_track : Nat
  recent_metrics : List HealthMetric
  goal_progress : List ProgressSnapshot
deriving DecidableEq, Repr

/-- The `.exclude(end_date__lt=today)` condition of the dashboard's
active-goal query: keep goals whose end date is unset or not before today. -/
def notExpiredFilter (today : Date) (g : Goal) : Bool :=
  !(match g.end_date with
    | some e => decide (e.toOrdinal < today.toOrdinal)
    | none => false)

/-- `DashboardViewSet.list` (views.py lines 239-276): per-user counts, the
active-goal query, the five most recent observations, and the on-track count
over the serialized active goals. -/
def DashboardViewSet.list (user : Nat) (today : Date)
    (metrics : List HealthMetric) (goals : List Goal) : DashboardData :=
  let week_ago := today.toOrdinal - 7
  let total_metrics := (metrics.filter (fun m => m.user == user)).length
  let metrics_this_week :=
    (metrics.filter (fun m =>
      m.user == user && decide (week_ago ≤ m.recorded_date.toOrdinal))).length
  let active_goals := goals.filter (fun g =>
    g.user == user && g.is_active && notExpiredFilter today g)
  let recent_metrics :=
    ((metrics.filter (fun m => m.user == user)).mergeSort metricKeyLe).take 5
  let goals_on_track := active_goals.countP (fun g =>
    decide (50 ≤ (GoalSerializer.get_progress g today metrics).percentage))
  { total_metrics_logged := total_metrics
    active_goals := active_goals.length
    metrics_this_week := metrics_this_week
    goals_on_track := goals_on_track
    recent_metrics := recent_metrics
    goal_progress := active_goals.map (fun g => GoalSerializer.get_progress g today metrics) }

/-! ### Goal deactivation: `GoalViewSet.deactivate` (views.py) -/

/-- `GoalViewSet.deactivate` on the fetched goal: `goal.is_active = False;
goal.save()`. -/
def GoalViewSet.deactivate (g : Goal) : Goal := { g with is_active := false }

/-- Effect of the deactivate action on the goal table: the row with primary
key `pk` is updated in place, every other row is untouched, no row is
deleted. -/
def deactivateInStore (goals : List Goal) (pk : Nat) : List Goal :=
  goals.map (fun g => if g.id == pk then GoalViewSet.deactivate g else g)

/-! ### Spec-side comparison definitions -/

/-- Following the spec sentence "observations_this_week = count of
MetricObservations owned by the user with recorded_date within the last 7 days
inclusive of today": observations dated between `today - 7` days and `today`
(reading the lower bound generously as 7 days before today). -/
def observationsWithinLast7Days (user : Nat) (today : Date)
    (metrics : List HealthMetric) : Nat :=
  (metrics.filter (fun m =>
    m.user == user &&
    decide (today.toOrdinal - 7 ≤ m.recorded_date.toOrdinal) &&
    decide (m.recorded_date.toOrdinal ≤ today.toOrdinal))).length

/-- Following the claim's words for the bounds check: the value violates the
bounds when "min_value is set and value < min_value, or max_value is set and
value > max_value". -/
def boundsViolationSpec (mt : MetricType) (v : ℚ) : Bool :=
  (match mt.min_value with
   | some mv => decide (v < mv)
   | none => false) ||
  (match mt.max_value with
   | some mv => decide (mv < v)
   | none => false)

/-! ### Concrete fixtures used by witnesses and counterexamples -/

/-- Monday, 2026-10-12. -/
def dEx : Date := ⟨2026, 10, 12⟩

/-- The day after `dEx`. -/
def dNext : Date := ⟨2026, 10, 13⟩

/-- A metric type with no bounds. -/
def mtPlain : MetricType := ⟨1, "steps", "steps", none, none, true⟩

/-- A metric type whose maximum bound is 0. -/
def mtZeroMax : MetricType := ⟨2, "rest_days", "days", none, some 0, true⟩

/-- A metric type whose minimum bound is 2. -/
def mtMin2 : MetricType := ⟨3, "sleep_hours", "hours", some 2, none, true⟩

/-- Observation of value 3 on `dEx` for user 1, metric type 1. -/
def obs3 : HealthMetric := ⟨1, 1, 1, 3, dEx, 100⟩

/-- Observation of value 5 on `dEx` for user 1, metric type 1. -/
def obs5 : HealthMetric := ⟨2, 1, 1, 5, dEx, 101⟩

/-- Observation of value 8 on `dEx` for user 1, metric type 1. -/
def obs8 : HealthMetric := ⟨3, 1, 1, 8, dEx, 102⟩

/-- Observation dated the day after `dEx` (future-dated relative to `dEx`). -/
def obsFuture : HealthMetric := ⟨4, 1, 1, 2, dNext, 103⟩

/-- An active DAILY goal with target 5 for user 1, metric type 1. -/
def gDaily : Goal := ⟨1, 1, 1, 5, .DAILY, .INCREASE, true, dEx, none, 10⟩

/-- An active WEEKLY goal with target 10 for user 1, metric type 1. -/
def gWeekly : Goal := ⟨2, 1, 1, 10, .WEEKLY, .INCREASE, true, dEx, none, 11⟩

/-- `gDaily` with the opposite direction. -/
def gDailyDecrease : Goal := ⟨1, 1, 1, 5, .DAILY, .DECREASE, true, dEx, none, 10⟩

/-! ### Helper lemmas -/

theorem round1_intCast (n : ℤ) : round1 (n : ℚ) = n := by
  unfold round1 roundHalfToEven
  have h : ((n : ℚ) * 10) = ((n * 10 : ℤ) : ℚ) := by push_cast; ring
  rw [h, Int.floor_intCast]
  rw [if_pos (by simp : ((n * 10 : ℤ) : ℚ) - ((n * 10 : ℤ) : ℚ) < 1 / 2)]
  push_cast
  ring

theorem get_progress_current_value (g : Goal) (today : Date)
    (metrics : List HealthMetric) :
    (GoalSerializer.get_progress g today metrics).current_value =
      if g.goal_type = .DAILY then sumValues (relevantMetrics g today metrics)
      else avgValues (relevantMetrics g today metrics) := rfl

theorem get_progress_percentage (g : Goal) (today : Date)
    (metrics : List HealthMetric) :
    (GoalSerializer.get_progress g today metrics).percentage =
      round1 (if 0 < g.target_value then
          min 100
            ((GoalSerializer.get_progress g today metrics).current_value /
              g.target_value * 100)
        else 0) := rfl

theorem get_progress_period_start (g : Goal) (today : Date)
    (metrics : List HealthMetric) :
    (GoalSerializer.get_progress g today metrics).period_start =
      progressWindowStart g.goal_type today := rfl

theorem get_progress_period_end (g : Goal) (today : Date)
    (metrics : List HealthMetric) :
    (GoalSerializer.get_progress g today metrics).period_end = today.toOrdinal := rfl

/-! ### C1: percentage formula -/

/-- C1: for every goal and metric history the percentage equals
`min 100 (current / target * 100)` rounded to one decimal place when the
target is positive, is 0 when the target is 0, and is exactly 100 whenever
`current_value ≥ target_value > 0`. -/
theorem progress_percentage_spec (g : Goal) (today : Date)
    (metrics : List HealthMetric) :
    (g.target_value = 0 →
      (GoalSerializer.get_progress g today metrics).percentage = 0) ∧
    (0 < g.target_value →
      (GoalSerializer.get_progress g today metrics).percentage =
        round1 (min 100
          ((GoalSerializer.get_progress g today metrics).current_value /
            g.target_value * 100))) ∧
    (0 < g.target_value →
      g.target_value ≤ (GoalSerializer.get_progress g today metrics).current_value →
      (GoalSerializer.get_progress g today metrics).percentage = 100) := by
  refine ⟨?_, ?_, ?_⟩
  · intro h
    rw [get_progress_percentage, if_neg (by rw [h]; exact lt_irrefl 0)]
    simpa using round1_intCast 0
  · intro h
    rw [get_progress_percentage, if_pos h]
  · intro h hle
    rw [get_progress_percentage, if_pos h]
    have h1 : (1 : ℚ) ≤
        (GoalSerializer.get_progress g today metrics).current_value / g.target_value :=
      (one_le_div h).mpr hle
    have h2 : (100 : ℚ) ≤
        (GoalSerializer.get_progress g today metrics).current_value /
          g.target_value * 100 := by
      nlinarith
    rw [min_eq_left h2]
    simpa using round1_intCast 100

/-- Witness for C1 at a concrete goal: target 5, one observation of value 8
in the daily window, percentage exactly 100. -/
theorem progress_percentage_spec_witness :
    (GoalSerializer.get_progress gDaily dEx [obs8]).percentage = 100 := by
  have hrel : relevantMetrics gDaily dEx [obs8] = [obs8] := rfl
  have hcur : (GoalSerializer.get_progress gDaily dEx [obs8]).current_value = 8 := by
    rw [get_progress_current_value, hrel]
    simp [gDaily, sumValues, obs8]
  exact (progress_percentage_spec gDaily dEx [obs8]).2.2
    (by norm_num [gDaily]) (by rw [hcur]; norm_num [gDaily])

/-! ### C2: evaluation window -/

/-- C2: the evaluation window always ends at today; a DAILY goal's window
starts at today; a WEEKLY goal's window starts at
`today - timedelta(days=today.weekday())`, which is a Monday at most 6 days
before today; a MONTHLY goal's window starts at the first day of today's
month, which is no later than today. -/
theorem progress_window_spec (g : Goal) (today : Date)
    (metrics : List HealthMetric) (hv : 1 ≤ today.day) :
    (GoalSerializer.get_progress g today metrics).period_end = today.toOrdinal ∧
    (g.goal_type = .DAILY →
      (GoalSerializer.get_progress g today metrics).period_start = today.toOrdinal) ∧
    (g.goal_type = .WEEKLY →
      (GoalSerializer.get_progress g today metrics).period_start =
          today.toOrdinal - today.weekday ∧
      weekdayOfOrdinal ((GoalSerializer.get_progress g today metrics).period_start) = 0 ∧
      (GoalSerializer.get_progress g today metrics).period_start ≤ today.toOrdinal ∧
      today.toOrdinal - (GoalSerializer.get_progress g today metrics).period_start ≤ 6) ∧
    (g.goal_type = .MONTHLY →
      (GoalSerializer.get_progress g today metrics).period_start =
          (Date.mk today.year today.month 1).toOrdinal ∧
      (GoalSerializer.get_progress g today metrics).period_start ≤ today.toOrdinal) := by
  have hord : 1 ≤ today.toOrdinal := by
    unfold Date.toOrdinal
    omega
  refine ⟨get_progress_period_end g today metrics, ?_, ?_, ?_⟩
  · intro h
    rw [get_progress_period_start, h]
    rfl
  · intro h
    rw [get_progress_period_start, h]
    refine ⟨rfl, ?_, ?_, ?_⟩
    · show weekdayOfOrdinal (today.toOrdinal - today.weekday) = 0
      unfold weekdayOfOrdinal Date.weekday
      omega
    · show today.toOrdinal - today.weekday ≤ today.toOrdinal
      omega
    · show today.toOrdinal - (today.toOrdinal - today.weekday) ≤ 6
      unfold Date.weekday
      omega
  · intro h
    rw [get_progress_period_start, h]
    refine ⟨rfl, ?_⟩
    show (Date.mk today.year today.month 1).toOrdinal ≤ today.toOrdinal
    unfold Date.toOrdinal
    simp only []
    omega

/-- Witness for C2 at a concrete WEEKLY goal on Monday 2026-10-12: the window
start is a Monday. -/
theorem progress_window_spec_witness :
    weekdayOfOrdinal ((GoalSerializer.get_progress gWeekly dEx [obs8]).period_start) = 0 :=
  ((progress_window_spec gWeekly dEx [obs8] (by decide)).2.2.1 rfl).2.1

/-! ### C3: aggregation rule -/

/-- C3: current_value is the sum of the window's observation values for a
DAILY goal and their mean for a WEEKLY or MONTHLY goal, 0 when the window is
empty; on observations [3, 5] a DAILY goal yields 8 and a WEEKLY goal yields
4. -/
theorem progress_aggregation_spec (g : Goal) (today : Date)
    (metrics : List HealthMetric) :
    ((GoalSerializer.get_progress g today metrics).current_value =
      if g.goal_type = .DAILY then sumValues (relevantMetrics g today metrics)
      else avgValues (relevantMetrics g today metrics)) ∧
    (relevantMetrics g today metrics = [] →
      (GoalSerializer.get_progress g today metrics).current_value = 0) ∧
    (GoalSerializer.get_progress gDaily dEx [obs3, obs5]).current_value = 8 ∧
    (GoalSerializer.get_progress gWeekly dEx [obs3, obs5]).current_value = 4 := by
  refine ⟨get_progress_current_value g today metrics, ?_, ?_, ?_⟩
  · intro h
    rw [get_progress_current_value, h]
    split <;> simp [sumValues, avgValues]
  · have hrel : relevantMetrics gDaily dEx [obs3, obs5] = [obs3, obs5] := rfl
    rw [get_progress_current_value, hrel]
    norm_num [gDaily, sumValues, obs3, obs5]
  · have hrel : relevantMetrics gWeekly dEx [obs3, obs5] = [obs3, obs5] := rfl
    rw [get_progress_current_value, hrel, if_neg (by decide)]
    norm_num [avgValues, sumValues, obs3, obs5]

/-- Witness for C3: an empty history gives current_value 0. -/
theorem progress_aggregation_spec_witness :
    (GoalSerializer.get_progress gDaily dEx []).current_value = 0 :=
  (progress_aggregation_spec gDaily dEx []).2.1 rfl

/-! ### C4: dashboard goal counts -/

/-- C4: the dashboard's active_goals counts the user's active, non-expired
goals, and goals_on_track counts those among them whose computed progress
percentage is at least 50 (expiry as in `Goal.is_expired`). -/
theorem dashboard_goal_counts_spec (user : Nat) (today : Date)
    (metrics : List HealthMetric) (goals : List Goal) :
    (DashboardViewSet.list user today metrics goals).active_goals =
      (goals.filter (fun g =>
        g.user == user && g.is_active && !(g.is_expired today))).length ∧
    (DashboardViewSet.list user today metrics goals).goals_on_track =
      (goals.filter (fun g =>
        (g.user == user && g.is_active && !(g.is_expired today)) &&
        decide (50 ≤ (GoalSerializer.get_progress g today metrics).percentage))).length := by
  have hnot : ∀ g : Goal, notExpiredFilter today g = !(g.is_expired today) :=
    fun g => rfl
  constructor
  · rfl
  · show (goals.filter (fun g =>
        g.user == user && g.is_active && notExpiredFilter today g)).countP
          (fun g => decide (50 ≤ (GoalSerializer.get_progress g today metrics).percentage))
        = _
    rw [List.countP_filter, List.countP_eq_length_filter]
    congr 1
    refine List.filter_congr (fun g _ => ?_)
    rw [hnot]
    exact Bool.and_comm _ _

/-! ### C5: weekly observation count (corrected) -/

/-- C5 counterexample: for a user whose only observation is dated the day
after today, the dashboard's this-week count is 1 although no observation
lies within the last 7 days inclusive of today. -/
theorem dashboard_week_counterexample :
    (DashboardViewSet.list 1 dEx [obsFuture] []).metrics_this_week = 1 ∧
    observationsWithinLast7Days 1 dEx [obsFuture] = 0 := by
  decide

/-- C5 (amended): metrics_this_week counts the user's observations with
recorded_date on or after today minus 7 days, with no upper bound; when no
observation is future-dated this coincides with the count over
[today - 7 days, today].  total_metrics_logged counts all of the user's
observations. -/
theorem dashboard_week_amended (user : Nat) (today : Date)
    (metrics : List HealthMetric) (goals : List Goal) :
    (DashboardViewSet.list user today metrics goals).total_metrics_logged =
      (metrics.filter (fun m => m.user == user)).length ∧
    (DashboardViewSet.list user today metrics goals).metrics_this_week =
      (metrics.filter (fun m =>
        m.user == user &&
        decide (today.toOrdinal - 7 ≤ m.recorded_date.toOrdinal))).length ∧
    ((∀ m ∈ metrics, m.user == user →
        m.recorded_date.toOrdinal ≤ today.toOrdinal) →
      (DashboardViewSet.list user today metrics goals).metrics_this_week =
        observationsWithinLast7Days user today metrics) := by
  refine ⟨rfl, rfl, ?_⟩
  intro h
  show (metrics.filter (fun m =>
      m.user == user &&
      decide (today.toOrdinal - 7 ≤ m.recorded_date.toOrdinal))).length = _
  unfold observationsWithinLast7Days
  congr 1
  refine List.filter_congr (fun m hm => ?_)
  by_cases hu : m.user == user
  · have hle := h m hm hu
    simp [hu, hle]
  · simp [hu]

/-- Witness for C5's amended statement on a history with no future-dated
observation. -/
theorem dashboard_week_amended_witness :
    (DashboardViewSet.list 1 dEx [obs8] []).metrics_this_week =
      observationsWithinLast7Days 1 dEx [obs8] :=
  (dashboard_week_amended 1 dEx [obs8] []).2.2 (by decide)

/-! ### C6: direction does not influence progress -/

/-- C6: two goals identical in every field except direction produce the same
progress snapshot on the same date and metric history. -/
theorem progress_direction_irrelevant (g1 g2 : Goal) (today : Date)
    (metrics : List HealthMetric)
    (hid : g1.id = g2.id) (huser : g1.user = g2.user)
    (hmt : g1.metric_type = g2.metric_type)
    (htv : g1.target_value = g2.target_value)
    (hgt : g1.goal_type = g2.goal_type)
    (hact : g1.is_active = g2.is_active)
    (hsd : g1.start_date = g2.start_date)
    (hed : g1.end_date = g2.end_date)
    (hca : g1.created_at = g2.created_at) :
    GoalSerializer.get_progress g1 today metrics =
      GoalSerializer.get_progress g2 today metrics := by
  unfold GoalSerializer.get_progress relevantMetrics metricsInRange progressWindowStart
  rw [huser, hmt, htv, hgt]

/-- Witness for C6: `gDaily` and `gDailyDecrease` differ only in direction and
yield the same snapshot. -/
theorem progress_direction_irrelevant_witness :
    GoalSerializer.get_progress gDaily dEx [obs8] =
      GoalSerializer.get_progress gDailyDecrease dEx [obs8] :=
  progress_direction_irrelevant gDaily gDailyDecrease dEx [obs8]
    rfl rfl rfl rfl rfl rfl rfl rfl rfl

/-! ### C7: duplicate observations -/

/-- C7: the first insert for a (user, metric_type, recorded_date) triple
succeeds when validation passes, and after it any second insert for the same
triple fails with a validation error while the stored observation remains in
the store. -/
theorem duplicate_observation_spec (store : List HealthMetric) (user : Nat)
    (mt : MetricType) (v v2 : ℚ) (d : Date) (id1 t1 id2 t2 : Nat)
    (hmin : minViolation mt v = false) (hmax : maxViolation mt v = false)
    (hnodup : hasExistingEntry store user mt.id d = false) :
    HealthMetricCreateSerializer.create store user mt v d id1 t1 =
      Except.ok (store ++ [HealthMetric.mk id1 user mt.id v d t1]) ∧
    ∀ newStore,
      HealthMetricCreateSerializer.create store user mt v d id1 t1 =
        Except.ok newStore →
      HealthMetric.mk id1 user mt.id v d t1 ∈ newStore ∧
      ∃ e, HealthMetricCreateSerializer.create newStore user mt v2 d id2 t2 =
        Except.error e := by
  have hval : HealthMetricCreateSerializer.validate store user mt v d =
      Except.ok () := by
    simp [HealthMetricCreateSerializer.validate, hmin, hmax, hnodup]
  have hfirst : HealthMetricCreateSerializer.create store user mt v d id1 t1 =
      Except.ok (store ++ [HealthMetric.mk id1 user mt.id v d t1]) := by
    unfold HealthMetricCreateSerializer.create
    rw [hval]
  refine ⟨hfirst, ?_⟩
  intro newStore hok
  have hns : newStore = store ++ [HealthMetric.mk id1 user mt.id v d t1] :=
    (Except.ok.inj (hfirst.symm.trans hok)).symm
  have hdup : hasExistingEntry newStore user mt.id d = true := by
    subst hns
    unfold hasExistingEntry
    rw [List.any_append]
    simp
  subst hns
  refine ⟨List.mem_append_right _ (List.mem_singleton.mpr rfl), ?_⟩
  unfold HealthMetricCreateSerializer.create HealthMetricCreateSerializer.validate
  by_cases h1 : minViolation mt v2 = true
  · exact ⟨"Value must be at least the minimum", by simp [h1]⟩
  · by_cases h2 : maxViolation mt v2 = true
    · exact ⟨"Value must be at most the maximum", by simp [h1, h2]⟩
    · exact ⟨"You already have an entry for this date.", by simp [h1, h2, hdup]⟩

/-- Witness for C7: inserting value 5 into an empty store succeeds and a
second insert for the same user, metric type and date is rejected. -/
theorem duplicate_observation_spec_witness :
    ∃ e, HealthMetricCreateSerializer.create
        ([] ++ [HealthMetric.mk 1 1 mtPlain.id 5 dEx 10]) 1 mtPlain 6 dEx 2 11 =
      Except.error e :=
  ((duplicate_observation_spec [] 1 mtPlain 5 6 dEx 1 10 2 11 rfl rfl rfl).2
    ([] ++ [HealthMetric.mk 1 1 mtPlain.id 5 dEx 10])
    (duplicate_observation_spec [] 1 mtPlain 5 6 dEx 1 10 2 11 rfl rfl rfl).1).2

/-! ### C8: bounds validation (corrected) -/

/-- C8 counterexample: a metric type whose max_value is set to 0 does not
reject value 1 — Python truthiness skips a zero bound — although the value
violates the set bound. -/
theorem bounds_validation_counterexample :
    boundsViolationSpec mtZeroMax 1 = true ∧
    HealthMetricCreateSerializer.validate [] 1 mtZeroMax 1 dEx =
      Except.ok () := by
  constructor
  · simp only [boundsViolationSpec, mtZeroMax]
    norm_num
  · simp only [HealthMetricCreateSerializer.validate, minViolation, maxViolation,
      hasExistingEntry, mtZeroMax]
    norm_num

/-- C8 (amended): with no duplicate entry in the way, creation is rejected if
and only if min_value is set and nonzero with value below it, or max_value is
set and nonzero with value above it; a bound stored as 0 is skipped by the
truthiness test. -/
theorem bounds_validation_amended (store : List HealthMetric) (user : Nat)
    (mt : MetricType) (v : ℚ) (d : Date)
    (hnodup : hasExistingEntry store user mt.id d = false) :
    (∃ e, HealthMetricCreateSerializer.validate store user mt v d =
      Except.error e) ↔
    ((∃ mv, mt.min_value = some mv ∧ mv ≠ 0 ∧ v < mv) ∨
     (∃ mv, mt.max_value = some mv ∧ mv ≠ 0 ∧ mv < v)) := by
  have hminc : minViolation mt v = true ↔
      (∃ mv, mt.min_value = some mv ∧ mv ≠ 0 ∧ v < mv) := by
    cases hmv : mt.min_value <;> simp [minViolation, hmv]
  have hmaxc : maxViolation mt v = true ↔
      (∃ mv, mt.max_value = some mv ∧ mv ≠ 0 ∧ mv < v) := by
    cases hmv : mt.max_value <;> simp [maxViolation, hmv]
  constructor
  · rintro ⟨e, he⟩
    by_cases h1 : minViolation mt v = true
    · exact Or.inl (hminc.mp h1)
    · by_cases h2 : maxViolation mt v = true
      · exact Or.inr (hmaxc.mp h2)
      · exfalso
        simp [HealthMetricCreateSerializer.validate, h1, h2, hnodup] at he
  · intro h
    by_cases h1 : minViolation mt v = true
    · exact ⟨"Value must be at least the minimum",
        by simp [HealthMetricCreateSerializer.validate, h1]⟩
    · have h2 : maxViolation mt v = true := by
        rcases h with h | h
        · exact absurd (hminc.mpr h) h1
        · exact hmaxc.mpr h
      exact ⟨"Value must be at most the maximum",
        by simp [HealthMetricCreateSerializer.validate, h1, h2]⟩

/-- Witness for C8's amended statement: min bound 2, value 1, rejected. -/
theorem bounds_validation_amended_witness :
    ∃ e, HealthMetricCreateSerializer.validate [] 1 mtMin2 1 dEx =
      Except.error e :=
  (bounds_validation_amended [] 1 mtMin2 1 dEx rfl).mpr
    (Or.inl ⟨2, rfl, by norm_num, by norm_num⟩)

/-! ### C9: recent observations -/

theorem metricKeyLe_trans (a b c : HealthMetric) (hab : metricKeyLe a b = true)
    (hbc : metricKeyLe b c = true) : metricKeyLe a c = true := by
  simp only [metricKeyLe, Bool.or_eq_true, Bool.and_eq_true, decide_eq_true_eq,
    beq_iff_eq] at *
  omega

theorem metricKeyLe_total (a b : HealthMetric) :
    (metricKeyLe a b || metricKeyLe b a) = true := by
  simp only [metricKeyLe, Bool.or_eq_true, Bool.and_eq_true, decide_eq_true_eq,
    beq_iff_eq]
  omega

/-- C9: the dashboard's recent_metrics list holds the user's five
most-recently-recorded observations (or all of them when fewer than five),
in descending (recorded_date, creation time) order: its length is
min 5 (number of observations), it is sorted by the descending key, and the
remaining observations all sort no higher than every listed one. -/
theorem dashboard_recent_spec (user : Nat) (today : Date)
    (metrics : List HealthMetric) (goals : List Goal) :
    (DashboardViewSet.list user today metrics goals).recent_metrics.length =
      min 5 (metrics.filter (fun m => m.user == user)).length ∧
    List.Pairwise (fun a b => metricKeyLe a b = true)
      (DashboardViewSet.list user today metrics goals).recent_metrics ∧
    (∃ rest,
      ((DashboardViewSet.list user today metrics goals).recent_metrics ++ rest).Perm
        (metrics.filter (fun m => m.user == user)) ∧
      ∀ b ∈ rest,
        ∀ a ∈ (DashboardViewSet.list user today metrics goals).recent_metrics,
          metricKeyLe a b = true) ∧
    (∀ a b : HealthMetric, metricKeyLe a b = true ↔
      (b.recorded_date.toOrdinal < a.recorded_date.toOrdinal ∨
       (b.recorded_date.toOrdinal = a.recorded_date.toOrdinal ∧
        b.created_at ≤ a.created_at))) := by
  have hrec : (DashboardViewSet.list user today metrics goals).recent_metrics =
      ((metrics.filter (fun m => m.user == user)).mergeSort metricKeyLe).take 5 := rfl
  have hperm := List.mergeSort_perm (metrics.filter (fun m => m.user == user)) metricKeyLe
  have hsorted : List.Pairwise (fun a b => metricKeyLe a b = true)
      ((metrics.filter (fun m => m.user == user)).mergeSort metricKeyLe) :=
    List.sorted_mergeSort (fun a b c => metricKeyLe_trans a b c)
      (fun a b => metricKeyLe_total a b)
      (metrics.filter (fun m => m.user == user))
  refine ⟨?_, ?_, ?_, ?_⟩
  · rw [hrec, List.length_take, hperm.length_eq]
  · rw [hrec]
    exact List.Pairwise.sublist (List.take_sublist 5 _) hsorted
  · refine ⟨((metrics.filter (fun m => m.user == user)).mergeSort metricKeyLe).drop 5,
      ?_, ?_⟩
    · rw [hrec, List.take_append_drop]
      exact hperm
    · intro b hb a ha
      rw [hrec] at ha
      have hsplit : List.Pairwise (fun a b => metricKeyLe a b = true)
          ((((metrics.filter (fun m => m.user == user)).mergeSort metricKeyLe).take 5) ++
            (((metrics.filter (fun m => m.user == user)).mergeSort metricKeyLe).drop 5)) := by
        rw [List.take_append_drop]
        exact hsorted
      exact (List.pairwise_append.mp hsplit).2.2 a ha b hb
  · intro a b
    simp only [metricKeyLe, Bool.or_eq_true, Bool.and_eq_true, decide_eq_true_eq,
      beq_iff_eq]

/-- Witness for C9 at a concrete three-observation history. -/
theorem dashboard_recent_spec_witness :
    (DashboardViewSet.list 1 dEx [obs3, obs5, obs8] []).recent_metrics.length =
      min 5 (([obs3, obs5, obs8].filter (fun m => m.user == 1)).length) :=
  (dashboard_recent_spec 1 dEx [obs3, obs5, obs8] []).1

/-! ### C10: goal deactivation frame -/

/-- C10: deactivating a goal sets is_active to false, leaves every other
field unchanged, succeeds (as the identity) on an already-inactive goal, and
at the store level updates the row in place without deleting any row. -/
theorem goal_deactivate_spec (g : Goal) (goals : List Goal) (pk : Nat) :
    (GoalViewSet.deactivate g).is_active = false ∧
    (GoalViewSet.deactivate g).id = g.id ∧
    (GoalViewSet.deactivate g).user = g.user ∧
    (GoalViewSet.deactivate g).metric_type = g.metric_type ∧
    (GoalViewSet.deactivate g).target_value = g.target_value ∧
    (GoalViewSet.deactivate g).goal_type = g.goal_type ∧
    (GoalViewSet.deactivate g).direction = g.direction ∧
    (GoalViewSet.deactivate g).start_date = g.start_date ∧
    (GoalViewSet.deactivate g).end_date = g.end_date ∧
    (GoalViewSet.deactivate g).created_at = g.created_at ∧
    (g.is_active = false → GoalViewSet.deactivate g = g) ∧
    (deactivateInStore goals pk).length = goals.length ∧
    (∀ g0 ∈ goals, g0.id ≠ pk → g0 ∈ deactivateInStore goals pk) := by
  refine ⟨rfl, rfl, rfl, rfl, rfl, rfl, rfl, rfl, rfl, rfl, ?_, ?_, ?_⟩
  · intro h
    cases g
    simp only [GoalViewSet.deactivate] at *
    rw [← h]
  · exact List.length_map _ _
  · intro g0 hmem hne
    unfold deactivateInStore
    have : (if g0.id == pk then GoalViewSet.deactivate g0 else g0) = g0 := by
      rw [if_neg (by simpa using hne)]
    exact this ▸ List.mem_map_of_mem _ hmem

/-- Witness for C10: deactivating an already-inactive goal returns it
unchanged. -/
theorem goal_deactivate_spec_witness :
    GoalViewSet.deactivate (Goal.mk 1 1 1 5 .DAILY .INCREASE false dEx none 10) =
      Goal.mk 1 1 1 5 .DAILY .INCREASE false dEx none 10 :=
  (goal_deactivate_spec (Goal.mk 1 1 1 5 .DAILY .INCREASE false dEx none 10)
    [] 0).2.2.2.2.2.2.2.2.2.2.1 rfl

end DjangoHealth
